import Mathlib

/-!
Shallow embedding of `fast_api_sample.py`: the `Book` data model and the
`BookStore` class (an insertion-ordered mapping from identifiers to books,
persisted as a JSON array in a remote blob), together with proofs of the
specification's claims about them.

Modelling conventions:
* A Python `dict` (insertion-ordered, unique keys) is an association list
  `List (Option String × Book)`; `pyInsert`, `pyDelete`, `pyLookup` mirror
  `d[k] = v`, `del d[k]` and `d.get(k)` / `k in d`.
* `uuid4().hex` is an external source of randomness; each call site takes the
  generated hex token as an explicit argument, and theorems that depend on
  uuid uniqueness hypothesise the token's freshness.
* `float` prices are carried opaquely (never computed with), modelled as `Rat`.
* A raised `HTTPException(status, detail)` or re-raised `botocore` client error
  becomes the `Except.error` branch of `Except PyError _`.
* The S3 backend is modelled by the outcome the single `put_object` /
  `get_object` call reports (`S3PutResult` / `S3GetResult`); the remote blob's
  contents are threaded explicitly as `Option (List BookDict)`.
-/

/-- The closed genre enumeration of `Book.genre`
(`Literal["fiction", "romance", "comedy", "adventure", "self-improvement", "drama"]`). -/
inductive Genre where
  | fiction
  | romance
  | comedy
  | adventure
  | selfImprovement
  | drama
deriving DecidableEq, Repr

/-- The `Book` pydantic model: `name`, `genre`, `price`, and an optional
`book_id` (a hex uuid token, or `None`). -/
structure Book where
  name : String
  genre : Genre
  price : Rat
  book_id : Option String
deriving DecidableEq, Repr

/-- The plain-mapping representation produced by `Book.to_dict`
(the same four fields, as a plain record). -/
structure BookDict where
  name : String
  genre : Genre
  price : Rat
  book_id : Option String
deriving DecidableEq, Repr

/-- `Book.to_dict`: the dictionary `{"name": ..., "genre": ..., "price": ..., "book_id": ...}`. -/
def Book.to_dict (b : Book) : BookDict :=
  { name := b.name, genre := b.genre, price := b.price, book_id := b.book_id }

/-- Python default-argument evaluation: the default of the `book_id` field is
`uuid4().hex` evaluated ONCE when the `Book` class body runs; `classToken` is
that single token. Constructing a `Book` without an explicit `book_id`
argument uses it. -/
def Book.mkDefault (classToken : String) (name : String) (genre : Genre) (price : Rat) : Book :=
  { name := name, genre := genre, price := price, book_id := some classToken }

/-- Python `d[k] = v` on an insertion-ordered dict: replace the value in place
if `k` is already a key, else append the new entry at the end. -/
def pyInsert {α β : Type} [DecidableEq α] : List (α × β) → α → β → List (α × β)
  | [], k, v => [(k, v)]
  | (k₀, v₀) :: rest, k, v =>
    if k₀ = k then (k, v) :: rest else (k₀, v₀) :: pyInsert rest k v

/-- Python `del d[k]`: remove the entry whose key is `k` (keys are unique in a
dict, so removing the first occurrence is exact). -/
def pyDelete {α β : Type} [DecidableEq α] : List (α × β) → α → List (α × β)
  | [], _ => []
  | (k₀, v₀) :: rest, k =>
    if k₀ = k then rest else (k₀, v₀) :: pyDelete rest k

/-- Python `d.get(k)` / the lookup behind `k in d`. -/
def pyLookup {α β : Type} [DecidableEq α] : List (α × β) → α → Option β
  | [], _ => none
  | (k₀, v₀) :: rest, k =>
    if k₀ = k then some v₀ else pyLookup rest k

/-- The `BookStore.books` mapping: `book_id` key (a `str`, or Python `None`
for a book whose id field is null) to `Book`, in insertion order. -/
structure BookStore where
  books : List (Option String × Book)
deriving DecidableEq, Repr

/-- Errors a store operation can raise: `HTTPException(status, detail)` or a
re-raised `botocore.exceptions.ClientError` with the given error code. -/
inductive PyError where
  | http (status : Nat) (detail : String)
  | clientError (code : String)
deriving DecidableEq, Repr

/-- Outcome reported by the single `s3.put_object` call inside `_save_books`. -/
inductive S3PutResult where
  | ok
  | clientError (code : String)
deriving DecidableEq, Repr

/-- Outcome of the `head_object`/`get_object` pair inside `_load_books`:
blob found (with parsed records), blob missing (404), or another client error. -/
inductive S3GetResult where
  | found (data : List BookDict)
  | missing
  | otherError (code : String)
deriving DecidableEq, Repr

/-- `[book.to_dict() for book in self.books.values()]`: the JSON array body
written by `_save_books`. -/
def serializeBooks (s : BookStore) : List BookDict :=
  s.books.map (fun kv => kv.2.to_dict)

instance {ε α : Type} [DecidableEq ε] [DecidableEq α] : DecidableEq (Except ε α) := fun x y =>
  match x, y with
  | .ok a, .ok b =>
    if h : a = b then .isTrue (by rw [h]) else .isFalse (by intro hh; cases hh; exact h rfl)
  | .error a, .error b =>
    if h : a = b then .isTrue (by rw [h]) else .isFalse (by intro hh; cases hh; exact h rfl)
  | .ok _, .error _ => .isFalse (by intro hh; cases hh)
  | .error _, .ok _ => .isFalse (by intro hh; cases hh)

/-- Result of `_save_books`: the remote blob afterwards, and normal return
(`Except.ok`) versus a propagated exception. -/
structure SaveResult where
  blob : Option (List BookDict)
  result : Except PyError Unit
deriving DecidableEq, Repr

/-- `BookStore._save_books`: one `put_object` of the serialized collection.
On success the blob is overwritten in full. On a `ClientError` with code
`"404"` the handler only prints and returns normally (the failure is
swallowed); on any other `ClientError` code it re-raises. No retry. -/
def save_books (s : BookStore) (blob : Option (List BookDict)) (put : S3PutResult) : SaveResult :=
  match put with
  | .ok => { blob := some (serializeBooks s), result := .ok () }
  | .clientError code =>
    if code = "404" then { blob := blob, result := .ok () }
    else { blob := blob, result := .error (.clientError code) }

/-- Result of a mutating store call: the in-memory mapping afterwards, the
remote blob afterwards, how many `put_object` attempts were issued, and the
returned value or propagated exception. -/
structure MutOutcome (α : Type) where
  store : BookStore
  blob : Option (List BookDict)
  puts : Nat
  result : Except PyError α
deriving DecidableEq, Repr

/-- The `Book(name=book_data["name"], genre=..., price=..., book_id=...)`
constructor call inside `_load_books`. -/
def bookFromRecord (bd : BookDict) : Book :=
  { name := bd.name, genre := bd.genre, price := bd.price, book_id := bd.book_id }

/-- `BookStore._load_books`: on a 404 from `head_object` return the empty
mapping; on another client error re-raise; on success rebuild each `Book`
from its record (keeping its persisted `book_id`) and key it by that id. -/
def load_books (res : S3GetResult) : Except PyError (List (Option String × Book)) :=
  match res with
  | .found data =>
    .ok (data.foldl (fun books bd => pyInsert books bd.book_id (bookFromRecord bd)) [])
  | .missing => .ok []
  | .otherError code => .error (.clientError code)

/-- `BookStore.get_all_books`: `list(self.books.values())`. -/
def get_all_books (s : BookStore) : List Book :=
  s.books.map (fun kv => kv.2)

/-- `BookStore.get_book_by_id`. -/
def get_book_by_id (s : BookStore) (book_id : String) : Except PyError BookDict :=
  match pyLookup s.books (some book_id) with
  | some b => .ok b.to_dict
  | none => .error (.http 404 ("Book ID " ++ book_id ++ " not found in database."))

/-- `BookStore.get_book_by_index` (the index is a Python `int`, possibly
negative at the store level). -/
def get_book_by_index (s : BookStore) (index : Int) : Except PyError BookDict :=
  if h : 0 ≤ index ∧ index < (s.books.length : Int) then
    .ok ((get_all_books s).get
      ⟨index.toNat, by
        have h1 := h.1
        have h2 := h.2
        simp only [get_all_books, List.length_map]
        omega⟩).to_dict
  else
    .error (.http 404
      ("book index " ++ toString index ++ " out of range (" ++ toString s.books.length ++ ")"))

/-- `BookStore.add_book`: overwrite `book.book_id` with a fresh `uuid4().hex`
(passed in as `newId`), insert under that id, persist, and return the new id
(the `{"book-id": ...}` payload). An exception from `_save_books` propagates
after the in-memory insertion. -/
def add_book (s : BookStore) (blob : Option (List BookDict)) (newId : String) (book : Book)
    (put : S3PutResult) : MutOutcome String :=
  let book' : Book := { book with book_id := some newId }
  let s' : BookStore := { books := pyInsert s.books book'.book_id book' }
  let sv := save_books s' blob put
  match sv.result with
  | .ok _ => { store := s', blob := sv.blob, puts := 1, result := .ok newId }
  | .error e => { store := s', blob := sv.blob, puts := 1, result := .error e }

/-- `BookStore.update_book`: if `book_id` is a key, store the replacement
wholesale under the original key (its own `book_id` field untouched), persist,
and return `{"book": ..., "book-id": ...}`; else raise 404 without touching
anything. -/
def update_book (s : BookStore) (blob : Option (List BookDict)) (book_id : String)
    (new_book : Book) (put : S3PutResult) : MutOutcome (BookDict × String) :=
  if (pyLookup s.books (some book_id)).isSome then
    let s' : BookStore := { books := pyInsert s.books (some book_id) new_book }
    let sv := save_books s' blob put
    match sv.result with
    | .ok _ =>
      { store := s', blob := sv.blob, puts := 1, result := .ok (new_book.to_dict, book_id) }
    | .error e => { store := s', blob := sv.blob, puts := 1, result := .error e }
  else
    { store := s, blob := blob, puts := 0,
      result := .error (.http 404 ("Book ID " ++ book_id ++ " not found in database.")) }

/-- `BookStore.delete_book`: if `book_id` is a key, remove it, persist, and
return the success message; else raise 404 without touching anything. -/
def delete_book (s : BookStore) (blob : Option (List BookDict)) (book_id : String)
    (put : S3PutResult) : MutOutcome String :=
  if (pyLookup s.books (some book_id)).isSome then
    let s' : BookStore := { books := pyDelete s.books (some book_id) }
    let sv := save_books s' blob put
    match sv.result with
    | .ok _ => { store := s', blob := sv.blob, puts := 1, result := .ok "The book has been deleted" }
    | .error e => { store := s', blob := sv.blob, puts := 1, result := .error e }
  else
    { store := s, blob := blob, puts := 0,
      result := .error (.http 404 ("Book ID " ++ book_id ++ " not found in database.")) }

/-! ### Basic facts about the Python-dict operations -/

theorem pyLookup_pyInsert {α β : Type} [DecidableEq α] (m : List (α × β)) (k k' : α) (v : β) :
    pyLookup (pyInsert m k v) k' = if k' = k then some v else pyLookup m k' := by
  induction m with
  | nil =>
    by_cases h : k' = k
    · subst h; simp [pyInsert, pyLookup]
    · simp [pyInsert, pyLookup, h, Ne.symm h]
  | cons hd tl ih =>
    obtain ⟨k₀, v₀⟩ := hd
    by_cases h0 : k₀ = k
    · subst h0
      by_cases h1 : k' = k₀
      · subst h1; simp [pyInsert, pyLookup]
      · simp [pyInsert, pyLookup, h1, Ne.symm h1]
    · by_cases h1 : k₀ = k'
      · subst h1
        simp [pyInsert, pyLookup, h0]
      · simp [pyInsert, pyLookup, h0, h1, ih]

theorem pyInsert_of_lookup_none {α β : Type} [DecidableEq α] (m : List (α × β)) (k : α) (v : β)
    (h : pyLookup m k = none) : pyInsert m k v = m ++ [(k, v)] := by
  induction m with
  | nil => simp [pyInsert]
  | cons hd tl ih =>
    obtain ⟨k₀, v₀⟩ := hd
    by_cases h0 : k₀ = k
    · subst h0; simp [pyLookup] at h
    · simp only [pyLookup, h0, if_false] at h
      simp [pyInsert, h0, ih h]

theorem pyInsert_keys_of_lookup_isSome {α β : Type} [DecidableEq α] (m : List (α × β)) (k : α)
    (v : β) (h : (pyLookup m k).isSome) :
    (pyInsert m k v).map Prod.fst = m.map Prod.fst := by
  induction m with
  | nil => simp [pyLookup] at h
  | cons hd tl ih =>
    obtain ⟨k₀, v₀⟩ := hd
    by_cases h0 : k₀ = k
    · subst h0; simp [pyInsert]
    · simp only [pyLookup, h0, if_false] at h
      simp [pyInsert, h0, ih h]

theorem pyInsert_length_of_lookup_isSome {α β : Type} [DecidableEq α] (m : List (α × β)) (k : α)
    (v : β) (h : (pyLookup m k).isSome) : (pyInsert m k v).length = m.length := by
  have h1 : ((pyInsert m k v).map Prod.fst).length = (m.map Prod.fst).length := by
    rw [pyInsert_keys_of_lookup_isSome m k v h]
  simpa using h1

theorem pyDelete_sublist {α β : Type} [DecidableEq α] (m : List (α × β)) (k : α) :
    (pyDelete m k).Sublist m := by
  induction m with
  | nil => simp [pyDelete]
  | cons hd tl ih =>
    obtain ⟨k₀, v₀⟩ := hd
    by_cases h0 : k₀ = k
    · simp [pyDelete, h0]
    · simp only [pyDelete, h0, if_false]
      exact List.Sublist.cons₂ _ ih

theorem pyDelete_length_of_lookup_isSome {α β : Type} [DecidableEq α] (m : List (α × β)) (k : α)
    (h : (pyLookup m k).isSome) : (pyDelete m k).length + 1 = m.length := by
  induction m with
  | nil => simp [pyLookup] at h
  | cons hd tl ih =>
    obtain ⟨k₀, v₀⟩ := hd
    by_cases h0 : k₀ = k
    · simp [pyDelete, h0]
    · simp only [pyLookup, h0, if_false] at h
      simp [pyDelete, h0, ih h]

theorem pyLookup_pyDelete_none {α β : Type} [DecidableEq α] (m : List (α × β)) (k k' : α)
    (h : pyLookup m k' = none) : pyLookup (pyDelete m k) k' = none := by
  induction m with
  | nil => simp [pyDelete, pyLookup]
  | cons hd tl ih =>
    obtain ⟨k₀, v₀⟩ := hd
    by_cases h0 : k₀ = k'
    · subst h0; simp [pyLookup] at h
    · simp only [pyLookup, h0, if_false] at h
      by_cases h1 : k₀ = k
      · simpa [pyDelete, h1] using h
      · simp [pyDelete, pyLookup, h0, h1, ih h]

theorem pyLookup_eq_none_iff {α β : Type} [DecidableEq α] (m : List (α × β)) (k : α) :
    pyLookup m k = none ↔ k ∉ m.map Prod.fst := by
  induction m with
  | nil => simp [pyLookup]
  | cons hd tl ih =>
    obtain ⟨k₀, v₀⟩ := hd
    simp only [List.map_cons, List.mem_cons]
    by_cases h0 : k₀ = k
    · subst h0; simp [pyLookup]
    · simp only [pyLookup, h0, if_false, ih]
      constructor
      · intro hh hor
        rcases hor with hor | hor
        · exact h0 hor.symm
        · exact hh hor
      · intro hh
        exact fun hmem => hh (Or.inr hmem)

/-! ### Components of the mutating operations -/

theorem add_book_store (s : BookStore) (blob : Option (List BookDict)) (newId : String)
    (book : Book) (put : S3PutResult) :
    (add_book s blob newId book put).store =
      { books := pyInsert s.books (some newId) { book with book_id := some newId } } := by
  cases put with
  | ok => simp [add_book, save_books]
  | clientError code =>
    by_cases hc : code = "404" <;> simp [add_book, save_books, hc]

theorem update_book_store_of_isSome (s : BookStore) (blob : Option (List BookDict))
    (book_id : String) (nb : Book) (put : S3PutResult)
    (h : (pyLookup s.books (some book_id)).isSome) :
    (update_book s blob book_id nb put).store =
      { books := pyInsert s.books (some book_id) nb } := by
  cases put with
  | ok => simp [update_book, save_books, h]
  | clientError code =>
    by_cases hc : code = "404" <;> simp [update_book, save_books, h, hc]

theorem delete_book_store_of_isSome (s : BookStore) (blob : Option (List BookDict))
    (book_id : String) (put : S3PutResult)
    (h : (pyLookup s.books (some book_id)).isSome) :
    (delete_book s blob book_id put).store = { books := pyDelete s.books (some book_id) } := by
  cases put with
  | ok => simp [delete_book, save_books, h]
  | clientError code =>
    by_cases hc : code = "404" <;> simp [delete_book, save_books, h, hc]

/-! ### Sample data used by concrete witnesses -/

def bkA : Book := { name := "A", genre := .fiction, price := 10, book_id := none }

def bkB : Book := { name := "B", genre := .romance, price := 15, book_id := some "zz" }

def bkC : Book := { name := "C", genre := .drama, price := 7, book_id := some "k" }

/-! ### C9 : the class-level default id token is shared -/

/-- C9: within one process the default of `Book.book_id` is the single hex
token computed once at class-definition time, so any two `Book`s constructed
without an explicit `book_id` argument carry the same identifier (the default
is not freshly random per instance). -/
theorem book_default_id_shared (classToken : String)
    (name₁ : String) (genre₁ : Genre) (price₁ : Rat)
    (name₂ : String) (genre₂ : Genre) (price₂ : Rat) :
    (Book.mkDefault classToken name₁ genre₁ price₁).book_id =
      (Book.mkDefault classToken name₂ genre₂ price₂).book_id ∧
    (Book.mkDefault classToken name₁ genre₁ price₁).book_id = some classToken := by
  exact ⟨rfl, rfl⟩

/-! ### C2 : unknown-id operations fail with 404 and change nothing -/

/-- C2: for any store state and an id that is not a key of the mapping,
`get_book_by_id`, `update_book` and `delete_book` all fail with the 404
not-found error carrying the id, the mapping is unchanged, the remote blob is
unchanged, and no persist (`put_object`) is attempted. -/
theorem unknown_id_fails_not_found (s : BookStore) (blob : Option (List BookDict)) (id : String)
    (nb : Book) (put : S3PutResult) (h : pyLookup s.books (some id) = none) :
    get_book_by_id s id = .error (.http 404 ("Book ID " ++ id ++ " not found in database.")) ∧
    update_book s blob id nb put =
      { store := s, blob := blob, puts := 0,
        result := .error (.http 404 ("Book ID " ++ id ++ " not found in database.")) } ∧
    delete_book s blob id put =
      { store := s, blob := blob, puts := 0,
        result := .error (.http 404 ("Book ID " ++ id ++ " not found in database.")) } := by
  refine ⟨?_, ?_, ?_⟩ <;> simp [get_book_by_id, update_book, delete_book, h]

theorem unknown_id_fails_not_found_witness :
    get_book_by_id { books := [(some "k", bkC)] } "q" =
      .error (.http 404 ("Book ID " ++ "q" ++ " not found in database.")) ∧
    update_book { books := [(some "k", bkC)] } none "q" bkA .ok =
      { store := { books := [(some "k", bkC)] }, blob := none, puts := 0,
        result := .error (.http 404 ("Book ID " ++ "q" ++ " not found in database.")) } ∧
    delete_book { books := [(some "k", bkC)] } none "q" .ok =
      { store := { books := [(some "k", bkC)] }, blob := none, puts := 0,
        result := .error (.http 404 ("Book ID " ++ "q" ++ " not found in database.")) } :=
  unknown_id_fails_not_found { books := [(some "k", bkC)] } none "q" bkA .ok (by decide)

/-! ### C1 : add_book with a fresh uuid, then get_book_by_id -/

/-- C1: for every payload and store state, `add_book` overwrites any
caller-supplied `book_id` with the freshly generated uuid token `newId`
(hypothesised fresh, modelling uuid uniqueness: it is not already a key of
the mapping), returns that identifier, appends the book under it, and a
subsequent `get_book_by_id` with the returned identifier yields a
representation whose name/genre/price equal the submitted payload's and whose
`book_id` equals the returned identifier. -/
theorem add_book_fresh_roundtrip (s : BookStore) (blob : Option (List BookDict)) (newId : String)
    (book : Book) (hfresh : pyLookup s.books (some newId) = none) :
    (add_book s blob newId book .ok).result = .ok newId ∧
    (add_book s blob newId book .ok).store.books =
      s.books ++ [(some newId, { book with book_id := some newId })] ∧
    get_book_by_id (add_book s blob newId book .ok).store newId =
      .ok { name := book.name, genre := book.genre, price := book.price,
            book_id := some newId } := by
  refine ⟨by simp [add_book, save_books], ?_, ?_⟩
  · rw [add_book_store]
    exact pyInsert_of_lookup_none s.books (some newId) _ hfresh
  · rw [add_book_store]
    simp [get_book_by_id, pyLookup_pyInsert, Book.to_dict]

theorem add_book_fresh_roundtrip_witness :
    (add_book { books := [(some "k", bkC)] } none "b1" bkB .ok).result = .ok "b1" ∧
    (add_book { books := [(some "k", bkC)] } none "b1" bkB .ok).store.books =
      [(some "k", bkC)] ++ [(some "b1", { bkB with book_id := some "b1" })] ∧
    get_book_by_id (add_book { books := [(some "k", bkC)] } none "b1" bkB .ok).store "b1" =
      .ok { name := bkB.name, genre := bkB.genre, price := bkB.price,
            book_id := some "b1" } :=
  add_book_fresh_roundtrip { books := [(some "k", bkC)] } none "b1" bkB (by decide)

/-! ### C3 : update_book stores the payload verbatim under the original key -/

/-- C3: for a store state with `id` a key of the mapping, `update_book` stores
the replacement `Book` under the original key `id` without modifying the
payload's own `book_id` field; hence after an update whose payload carries a
`book_id` different from `id` (or omits it, getting the class default), the
mapping key and the stored book's internal `book_id` field differ. -/
theorem update_book_keeps_payload_id (s : BookStore) (blob : Option (List BookDict)) (id : String)
    (nb : Book) (put : S3PutResult) (h : (pyLookup s.books (some id)).isSome) :
    pyLookup (update_book s blob id nb put).store.books (some id) = some nb ∧
    (nb.book_id ≠ some id →
      ∀ b', pyLookup (update_book s blob id nb put).store.books (some id) = some b' →
        b'.book_id ≠ some id) := by
  have hstore : pyLookup (update_book s blob id nb put).store.books (some id) = some nb := by
    rw [update_book_store_of_isSome s blob id nb put h]
    simp [pyLookup_pyInsert]
  refine ⟨hstore, ?_⟩
  intro hne b' hb'
  rw [hstore] at hb'
  injection hb' with hb2
  rw [← hb2]
  exact hne

theorem update_book_keeps_payload_id_witness :
    pyLookup (update_book { books := [(some "k", bkC)] } none "k" bkB .ok).store.books
      (some "k") = some bkB ∧
    (bkB.book_id ≠ some "k" →
      ∀ b', pyLookup (update_book { books := [(some "k", bkC)] } none "k" bkB .ok).store.books
          (some "k") = some b' →
        b'.book_id ≠ some "k") :=
  update_book_keeps_payload_id { books := [(some "k", bkC)] } none "k" bkB .ok (by decide)

/-! ### C6 : get_book_by_index is total over in-range and out-of-range indices -/

/-- C6: for a store with `n` books and any integer `i`, `get_book_by_index i`
returns the plain-mapping representation of the i-th book in insertion order
exactly when `0 ≤ i < n`; otherwise (including `i = n` and every negative
`i`) it fails with the 404 index-out-of-range error carrying the index and
the current count. -/
theorem get_book_by_index_range_spec (s : BookStore) (i : Int) :
    (0 ≤ i ∧ i < ((get_all_books s).length : Int) →
      ∀ b, (get_all_books s)[i.toNat]? = some b →
        get_book_by_index s i = .ok b.to_dict) ∧
    (¬(0 ≤ i ∧ i < (s.books.length : Int)) →
      get_book_by_index s i = .error (.http 404
        ("book index " ++ toString i ++ " out of range (" ++
          toString s.books.length ++ ")"))) := by
  constructor
  · intro h b hb
    have hlen : i < (s.books.length : Int) := by
      have h2 := h.2
      simpa [get_all_books] using h2
    have hcond : 0 ≤ i ∧ i < (s.books.length : Int) := ⟨h.1, hlen⟩
    have hnat : i.toNat < (get_all_books s).length := by
      simp only [get_all_books, List.length_map]
      omega
    rw [List.getElem?_eq_getElem hnat] at hb
    injection hb with hb2
    unfold get_book_by_index
    rw [dif_pos hcond]
    simp only [List.get_eq_getElem]
    rw [hb2]
  · intro h
    unfold get_book_by_index
    rw [dif_neg h]

theorem get_book_by_index_range_spec_witness :
    get_book_by_index { books := [(some "k", bkC)] } 0 = .ok bkC.to_dict ∧
    get_book_by_index { books := [(some "k", bkC)] } (-1) = .error (.http 404
      ("book index " ++ toString (-1 : Int) ++ " out of range (" ++
        toString (BookStore.mk [(some "k", bkC)]).books.length ++ ")")) :=
  ⟨(get_book_by_index_range_spec { books := [(some "k", bkC)] } 0).1 (by decide) bkC rfl,
   (get_book_by_index_range_spec { books := [(some "k", bkC)] } (-1)).2 (by decide)⟩

/-! ### C4 : behaviour of the mutations when the persist step fails -/

/-- C4 counterexample: a persist failure does NOT always propagate. When the
`put_object` inside `_save_books` fails with a `ClientError` whose code is
`"404"`, the handler swallows it (it only prints), so the triggering
`add_book` returns success to its caller even though the remote blob was left
stale (here still the empty array rather than the serialized new store). -/
theorem persist_failure_swallowed_counterexample :
    (add_book { books := [] } (some []) "a1" bkA (.clientError "404")).result = .ok "a1" ∧
    (add_book { books := [] } (some []) "a1" bkA (.clientError "404")).blob = some [] ∧
    (add_book { books := [] } (some []) "a1" bkA (.clientError "404")).blob ≠
      some (serializeBooks
        (add_book { books := [] } (some []) "a1" bkA (.clientError "404")).store) := by
  refine ⟨rfl, rfl, ?_⟩
  decide

/-- C4 (amended): when the persist step of a mutation fails, the in-memory
mapping retains the already-applied mutation, the remote blob is left
stale/unwritten, and exactly one put attempt is made (no retry); the failure
propagates to the caller of the triggering mutation only when its client
error code is not `"404"` — a `"404"`-coded client error is swallowed and the
mutation reports success. -/
theorem mutation_persist_failure (s : BookStore) (blob : Option (List BookDict)) (code : String)
    (newId : String) (book : Book) (idU : String) (nb : Book) (idD : String)
    (hU : (pyLookup s.books (some idU)).isSome) (hD : (pyLookup s.books (some idD)).isSome) :
    (add_book s blob newId book (.clientError code)).store.books =
      pyInsert s.books (some newId) { book with book_id := some newId } ∧
    (add_book s blob newId book (.clientError code)).blob = blob ∧
    (add_book s blob newId book (.clientError code)).puts = 1 ∧
    (add_book s blob newId book (.clientError code)).result =
      (if code = "404" then .ok newId else .error (.clientError code)) ∧
    (update_book s blob idU nb (.clientError code)).store.books =
      pyInsert s.books (some idU) nb ∧
    (update_book s blob idU nb (.clientError code)).blob = blob ∧
    (update_book s blob idU nb (.clientError code)).puts = 1 ∧
    (update_book s blob idU nb (.clientError code)).result =
      (if code = "404" then .ok (nb.to_dict, idU) else .error (.clientError code)) ∧
    (delete_book s blob idD (.clientError code)).store.books =
      pyDelete s.books (some idD) ∧
    (delete_book s blob idD (.clientError code)).blob = blob ∧
    (delete_book s blob idD (.clientError code)).puts = 1 ∧
    (delete_book s blob idD (.clientError code)).result =
      (if code = "404" then .ok "The book has been deleted"
       else .error (.clientError code)) := by
  by_cases hc : code = "404" <;>
    simp [add_book, update_book, delete_book, save_books, hU, hD, hc]

theorem mutation_persist_failure_witness :
    (add_book { books := [(some "k", bkC)] } none "b1" bkA (.clientError "500")).store.books =
      pyInsert (BookStore.mk [(some "k", bkC)]).books (some "b1")
        { bkA with book_id := some "b1" } ∧
    (add_book { books := [(some "k", bkC)] } none "b1" bkA (.clientError "500")).blob = none ∧
    (add_book { books := [(some "k", bkC)] } none "b1" bkA (.clientError "500")).puts = 1 ∧
    (add_book { books := [(some "k", bkC)] } none "b1" bkA (.clientError "500")).result =
      (if "500" = "404" then .ok "b1" else .error (.clientError "500")) ∧
    (update_book { books := [(some "k", bkC)] } none "k" bkB (.clientError "500")).store.books =
      pyInsert (BookStore.mk [(some "k", bkC)]).books (some "k") bkB ∧
    (update_book { books := [(some "k", bkC)] } none "k" bkB (.clientError "500")).blob = none ∧
    (update_book { books := [(some "k", bkC)] } none "k" bkB (.clientError "500")).puts = 1 ∧
    (update_book { books := [(some "k", bkC)] } none "k" bkB (.clientError "500")).result =
      (if "500" = "404" then .ok (bkB.to_dict, "k") else .error (.clientError "500")) ∧
    (delete_book { books := [(some "k", bkC)] } none "k" (.clientError "500")).store.books =
      pyDelete (BookStore.mk [(some "k", bkC)]).books (some "k") ∧
    (delete_book { books := [(some "k", bkC)] } none "k" (.clientError "500")).blob = none ∧
    (delete_book { books := [(some "k", bkC)] } none "k" (.clientError "500")).puts = 1 ∧
    (delete_book { books := [(some "k", bkC)] } none "k" (.clientError "500")).result =
      (if "500" = "404" then .ok "The book has been deleted"
       else .error (.clientError "500")) :=
  mutation_persist_failure { books := [(some "k", bkC)] } none "500" "b1" bkA "k" bkB "k"
    (by decide) (by decide)

/-! ### C5 : persisting and reloading round-trips the collection -/

theorem pyLookup_append_of_none {α β : Type} [DecidableEq α] (l₁ l₂ : List (α × β)) (k : α)
    (h : pyLookup l₁ k = none) : pyLookup (l₁ ++ l₂) k = pyLookup l₂ k := by
  induction l₁ with
  | nil => simp
  | cons hd tl ih =>
    obtain ⟨k₀, v₀⟩ := hd
    by_cases h0 : k₀ = k
    · subst h0; simp [pyLookup] at h
    · simp only [pyLookup, h0, if_false] at h
      simp [pyLookup, h0, ih h]

theorem load_fold_eq_append (data : List BookDict) :
    ∀ acc : List (Option String × Book),
      (∀ bd ∈ data, pyLookup acc bd.book_id = none) →
      (data.map BookDict.book_id).Nodup →
      data.foldl (fun books bd => pyInsert books bd.book_id (bookFromRecord bd)) acc =
        acc ++ data.map (fun bd => (bd.book_id, bookFromRecord bd)) := by
  induction data with
  | nil => intro acc _ _; simp
  | cons bd rest ih =>
    intro acc hfresh hnodup
    have hbd : pyLookup acc bd.book_id = none := hfresh bd (by simp)
    have hstep : pyInsert acc bd.book_id (bookFromRecord bd) =
        acc ++ [(bd.book_id, bookFromRecord bd)] :=
      pyInsert_of_lookup_none _ _ _ hbd
    have hnodup' : (rest.map BookDict.book_id).Nodup := by
      simp only [List.map_cons, List.nodup_cons] at hnodup
      exact hnodup.2
    have hfresh' : ∀ bd' ∈ rest,
        pyLookup (acc ++ [(bd.book_id, bookFromRecord bd)]) bd'.book_id = none := by
      intro bd' hbd'
      have hne : ¬ bd.book_id = bd'.book_id := by
        simp only [List.map_cons, List.nodup_cons] at hnodup
        intro he
        exact hnodup.1 (he ▸ List.mem_map_of_mem BookDict.book_id hbd')
      rw [pyLookup_append_of_none _ _ _ (hfresh bd' (List.mem_cons_of_mem _ hbd'))]
      simp [pyLookup, hne]
    simp only [List.foldl_cons, hstep]
    rw [ih (acc ++ [(bd.book_id, bookFromRecord bd)]) hfresh' hnodup']
    simp

/-- C5: serializing the full collection to the persisted JSON-array format and
constructing a fresh store that loads from that blob yields an identical
collection — same ids (not regenerated on load), same name/genre/price
values, same order. The hypothesis is the data model's invariant that no two
books in a store share a `book_id`. -/
theorem save_load_roundtrip (s : BookStore)
    (hids : ((get_all_books s).map Book.book_id).Nodup) :
    load_books (.found (serializeBooks s)) =
      .ok ((get_all_books s).map (fun b => (b.book_id, b))) ∧
    get_all_books { books := (get_all_books s).map (fun b => (b.book_id, b)) } =
      get_all_books s := by
  constructor
  · have h1 : ∀ bd ∈ serializeBooks s, pyLookup ([] : List (Option String × Book)) bd.book_id
        = none := by
      intro bd _
      rfl
    have h2 : ((serializeBooks s).map BookDict.book_id).Nodup := by
      have hcomp : (serializeBooks s).map BookDict.book_id =
          (get_all_books s).map Book.book_id := by
        simp [serializeBooks, get_all_books, List.map_map, Book.to_dict]
      rw [hcomp]
      exact hids
    have hred : load_books (.found (serializeBooks s)) =
        .ok ((serializeBooks s).foldl
          (fun books bd => pyInsert books bd.book_id (bookFromRecord bd)) []) := rfl
    rw [hred, load_fold_eq_append (serializeBooks s) [] h1 h2]
    simp only [List.nil_append]
    congr 1
    simp only [serializeBooks, get_all_books, List.map_map]
    rfl
  · simp [get_all_books, List.map_map]

theorem save_load_roundtrip_witness :
    load_books (.found (serializeBooks { books := [(some "k", bkC), (none, bkA)] })) =
      .ok ((get_all_books { books := [(some "k", bkC), (none, bkA)] }).map
        (fun b => (b.book_id, b))) ∧
    get_all_books { books := ((get_all_books { books := [(some "k", bkC), (none, bkA)] }).map
        (fun b => (b.book_id, b))) } =
      get_all_books { books := [(some "k", bkC), (none, bkA)] } :=
  save_load_roundtrip { books := [(some "k", bkC), (none, bkA)] } (by decide)

/-! ### Sequences of store operations (for the counting and ordering claims) -/

/-- One mutating call against the store: `add_book` (with the uuid token the
call generates), `update_book`, or `delete_book`. -/
inductive StoreOp where
  | addOp (newId : String) (book : Book)
  | updateOp (book_id : String) (book : Book)
  | deleteOp (book_id : String)
deriving DecidableEq, Repr

def StoreOp.isUpdateOp : StoreOp → Bool
  | .updateOp _ _ => true
  | _ => false

/-- The in-memory mapping after one call (the remote side does not influence
the mapping, so the persist outcome is taken successful). -/
def applyOp (s : BookStore) : StoreOp → BookStore
  | .addOp newId book => (add_book s none newId book .ok).store
  | .updateOp book_id book => (update_book s none book_id book .ok).store
  | .deleteOp book_id => (delete_book s none book_id .ok).store

/-- The store after a sequence of calls. -/
def runOps (s : BookStore) : List StoreOp → BookStore
  | [] => s
  | op :: rest => runOps (applyOp s op) rest

/-- The uuid tokens consumed by the `add_book` calls of the sequence, in order. -/
def addIds : List StoreOp → List String
  | [] => []
  | .addOp newId _ :: rest => newId :: addIds rest
  | .updateOp _ _ :: rest => addIds rest
  | .deleteOp _ :: rest => addIds rest

/-- Number of `add_book` calls in the sequence (each one succeeds). -/
def countAdds : List StoreOp → Nat
  | [] => 0
  | .addOp _ _ :: rest => countAdds rest + 1
  | .updateOp _ _ :: rest => countAdds rest
  | .deleteOp _ :: rest => countAdds rest

/-- Number of `delete_book` calls of the sequence that succeed (find their id)
when executed from `s`. -/
def countSuccDeletes (s : BookStore) : List StoreOp → Nat
  | [] => 0
  | .addOp newId book :: rest => countSuccDeletes (applyOp s (.addOp newId book)) rest
  | .updateOp book_id book :: rest => countSuccDeletes (applyOp s (.updateOp book_id book)) rest
  | .deleteOp book_id :: rest =>
    (if (pyLookup s.books (some book_id)).isSome then 1 else 0) +
      countSuccDeletes (applyOp s (.deleteOp book_id)) rest

/-- Modelled from the spec: "the Book that was the `(i+1)`-th successfully
added and not yet deleted book (insertion order preserved)" — the reference
list of books for a sequence of adds and deletes: an add appends the book
(with its id overwritten by the generated token), a delete removes the book
carrying the deleted id. -/
def specBooks : List Book → List StoreOp → List Book
  | l, [] => l
  | l, .addOp newId book :: rest => specBooks (l ++ [{ book with book_id := some newId }]) rest
  | l, .updateOp _ _ :: rest => specBooks l rest
  | l, .deleteOp book_id :: rest =>
    specBooks (l.filter (fun b => b.book_id ≠ some book_id)) rest

/-- The store invariant maintained by add/delete sequences: every entry is
keyed by its book's own `book_id`, and keys are pairwise distinct. -/
def GoodStore (s : BookStore) : Prop :=
  (∀ kv ∈ s.books, kv.1 = kv.2.book_id) ∧ (s.books.map Prod.fst).Nodup

instance (s : BookStore) : Decidable (GoodStore s) := by
  unfold GoodStore
  infer_instance

theorem pyDelete_values_eq_filter (k : Option String) :
    ∀ m : List (Option String × Book),
      (∀ kv ∈ m, kv.1 = kv.2.book_id) → (m.map Prod.fst).Nodup →
      (pyDelete m k).map Prod.snd =
        (m.map Prod.snd).filter (fun b => b.book_id ≠ k) := by
  intro m
  induction m with
  | nil => intro _ _; simp [pyDelete]
  | cons hd tl ih =>
    intro hids hnodup
    obtain ⟨k₀, v₀⟩ := hd
    have hk₀ : k₀ = v₀.book_id := hids (k₀, v₀) (by simp)
    have hids' : ∀ kv ∈ tl, kv.1 = kv.2.book_id :=
      fun kv hkv => hids kv (List.mem_cons_of_mem _ hkv)
    have hnodup' : (tl.map Prod.fst).Nodup := by
      simp only [List.map_cons, List.nodup_cons] at hnodup
      exact hnodup.2
    have hnotmem : k₀ ∉ tl.map Prod.fst := by
      simp only [List.map_cons, List.nodup_cons] at hnodup
      exact hnodup.1
    by_cases h0 : k₀ = k
    · have hv : v₀.book_id = k := hk₀ ▸ h0
      have hall : ∀ b ∈ tl.map Prod.snd, b.book_id ≠ k := by
        intro b hb he
        obtain ⟨kv, hkv, rfl⟩ := List.mem_map.mp hb
        apply hnotmem
        rw [h0, ← he, ← hids' kv hkv]
        exact List.mem_map_of_mem Prod.fst hkv
      have hfil : (tl.map Prod.snd).filter (fun b => b.book_id ≠ k) = tl.map Prod.snd :=
        List.filter_eq_self.mpr (by intro b hb; simpa using hall b hb)
      calc (pyDelete ((k₀, v₀) :: tl) k).map Prod.snd
          = tl.map Prod.snd := by simp [pyDelete, h0]
        _ = (tl.map Prod.snd).filter (fun b => b.book_id ≠ k) := hfil.symm
        _ = (((k₀, v₀) :: tl).map Prod.snd).filter (fun b => b.book_id ≠ k) := by
            rw [List.map_cons, List.filter_cons]
            simp [hv]
    · have hv : ¬ v₀.book_id = k := fun he => h0 (hk₀ ▸ he)
      simp [pyDelete, h0, hv, ih hids' hnodup']

theorem runOps_values (ops : List StoreOp) : ∀ s : BookStore,
    GoodStore s →
    (∀ op ∈ ops, op.isUpdateOp = false) →
    (addIds ops).Nodup →
    (∀ id ∈ addIds ops, pyLookup s.books (some id) = none) →
    GoodStore (runOps s ops) ∧
    (runOps s ops).books.map Prod.snd = specBooks (s.books.map Prod.snd) ops := by
  induction ops with
  | nil => intro s hg _ _ _; exact ⟨hg, rfl⟩
  | cons op rest ih =>
    intro s hg hnoupd hnodup hfresh
    match op with
    | .updateOp id b =>
      exact absurd (hnoupd (.updateOp id b) (List.mem_cons_self _ _))
        (by simp [StoreOp.isUpdateOp])
    | .addOp newId book =>
      have hfresh0 : pyLookup s.books (some newId) = none := hfresh newId (by simp [addIds])
      have hstore : (applyOp s (.addOp newId book)).books =
          s.books ++ [(some newId, { book with book_id := some newId })] := by
        simp only [applyOp, add_book_store]
        exact pyInsert_of_lookup_none _ _ _ hfresh0
      have hg1 : GoodStore (applyOp s (.addOp newId book)) := by
        constructor
        · intro kv hkv
          rw [hstore] at hkv
          rcases List.mem_append.mp hkv with h | h
          · exact hg.1 kv h
          · simp only [List.mem_singleton] at h
            subst h
            rfl
        · rw [hstore]
          simp only [List.map_append, List.map_cons, List.map_nil]
          rw [List.nodup_append]
          refine ⟨hg.2, List.nodup_singleton _, ?_⟩
          intro a ha hb
          simp only [List.mem_singleton] at hb
          subst hb
          exact ((pyLookup_eq_none_iff _ _).mp hfresh0) ha
      have hnodup' : (addIds rest).Nodup := by
        simp only [addIds, List.nodup_cons] at hnodup
        exact hnodup.2
      have hnoupd' : ∀ o ∈ rest, o.isUpdateOp = false :=
        fun o ho => hnoupd o (List.mem_cons_of_mem _ ho)
      have hfresh' : ∀ id ∈ addIds rest,
          pyLookup (applyOp s (.addOp newId book)).books (some id) = none := by
        intro id hid
        have hne : ¬ some newId = some id := by
          simp only [addIds, List.nodup_cons] at hnodup
          intro he
          injection he with he2
          exact hnodup.1 (he2 ▸ hid)
        rw [hstore,
          pyLookup_append_of_none _ _ _ (hfresh id (by simp only [addIds, List.mem_cons]; exact Or.inr hid))]
        simp [pyLookup, hne]
      obtain ⟨hgr, hvals⟩ := ih (applyOp s (.addOp newId book)) hg1 hnoupd' hnodup' hfresh'
      refine ⟨by simpa [runOps] using hgr, ?_⟩
      show (runOps (applyOp s (.addOp newId book)) rest).books.map Prod.snd = _
      rw [hvals]
      simp only [specBooks]
      congr 1
      rw [hstore]
      simp
    | .deleteOp id =>
      have hnodup' : (addIds rest).Nodup := by simpa [addIds] using hnodup
      have hnoupd' : ∀ o ∈ rest, o.isUpdateOp = false :=
        fun o ho => hnoupd o (List.mem_cons_of_mem _ ho)
      by_cases hmem : (pyLookup s.books (some id)).isSome
      · have hstore : (applyOp s (.deleteOp id)).books = pyDelete s.books (some id) := by
          simp only [applyOp, delete_book_store_of_isSome s none id .ok hmem]
        have hg1 : GoodStore (applyOp s (.deleteOp id)) := by
          constructor
          · intro kv hkv
            rw [hstore] at hkv
            exact hg.1 kv ((pyDelete_sublist _ _).subset hkv)
          · rw [hstore]
            exact List.Nodup.sublist ((pyDelete_sublist _ _).map Prod.fst) hg.2
        have hfresh' : ∀ id' ∈ addIds rest,
            pyLookup (applyOp s (.deleteOp id)).books (some id') = none := by
          intro id' hid'
          rw [hstore]
          exact pyLookup_pyDelete_none _ _ _ (hfresh id' (by simpa [addIds] using hid'))
        obtain ⟨hgr, hvals⟩ := ih (applyOp s (.deleteOp id)) hg1 hnoupd' hnodup' hfresh'
        refine ⟨by simpa [runOps] using hgr, ?_⟩
        show (runOps (applyOp s (.deleteOp id)) rest).books.map Prod.snd = _
        rw [hvals]
        simp only [specBooks]
        congr 1
        rw [hstore]
        exact pyDelete_values_eq_filter (some id) s.books hg.1 hg.2
      · have hstore : applyOp s (.deleteOp id) = s := by
          simp [applyOp, delete_book, hmem]
        have hnone : pyLookup s.books (some id) = none :=
          Option.not_isSome_iff_eq_none.mp hmem
        have hfil : (s.books.map Prod.snd).filter (fun b => b.book_id ≠ some id) =
            s.books.map Prod.snd := by
          apply List.filter_eq_self.mpr
          intro b hb
          obtain ⟨kv, hkv, rfl⟩ := List.mem_map.mp hb
          simp only [decide_eq_true_eq]
          intro he
          apply (pyLookup_eq_none_iff s.books (some id)).mp hnone
          rw [← he, ← hg.1 kv hkv]
          exact List.mem_map_of_mem Prod.fst hkv
        have hfresh' : ∀ id' ∈ addIds rest, pyLookup s.books (some id') = none :=
          fun id' hid' => hfresh id' (by simpa [addIds] using hid')
        obtain ⟨hgr, hvals⟩ := ih s hg hnoupd' hnodup' hfresh'
        constructor
        · show GoodStore (runOps (applyOp s (.deleteOp id)) rest)
          rw [hstore]
          exact hgr
        · show (runOps (applyOp s (.deleteOp id)) rest).books.map Prod.snd = _
          rw [hstore, hvals]
          simp only [specBooks]
          rw [hfil]

/-- C7: starting from an empty store, after any sequence of `add_book` and
`delete_book` calls (each add consuming a distinct uuid token — uuid
uniqueness), the mapping's iteration order is insertion order: the values are
exactly the spec-side reference list, and `get_book_by_index i` returns the
book that was the (i+1)-th successfully added and not yet deleted. -/
theorem insertion_order_preserved (ops : List StoreOp)
    (hnoupd : ∀ op ∈ ops, op.isUpdateOp = false)
    (hnodup : (addIds ops).Nodup) :
    get_all_books (runOps { books := [] } ops) = specBooks [] ops ∧
    ∀ (i : Nat) (b : Book), (specBooks [] ops)[i]? = some b →
      get_book_by_index (runOps { books := [] } ops) (i : Int) = .ok b.to_dict := by
  have h0 : GoodStore { books := [] } := ⟨by simp, by simp⟩
  have hfr : ∀ id ∈ addIds ops, pyLookup (BookStore.mk []).books (some id) = none :=
    fun id _ => rfl
  obtain ⟨hgr, hvals⟩ := runOps_values ops { books := [] } h0 hnoupd hnodup hfr
  have hall : get_all_books (runOps { books := [] } ops) = specBooks [] ops := by
    simpa [get_all_books] using hvals
  refine ⟨hall, ?_⟩
  intro i b hb
  obtain ⟨hlt, hgetel⟩ := List.getElem?_eq_some.mp hb
  have hlen1 : (get_all_books (runOps { books := [] } ops)).length =
      (specBooks [] ops).length := by rw [hall]
  have hlen2 : i < (runOps { books := [] } ops).books.length := by
    simp only [get_all_books, List.length_map] at hlen1
    omega
  have hcond : 0 ≤ (i : Int) ∧
      (i : Int) < ((runOps { books := [] } ops).books.length : Int) := by
    constructor <;> omega
  have hti : ((i : Nat) : Int).toNat = i := by simp
  have hlt2 : ((i : Nat) : Int).toNat < (get_all_books (runOps { books := [] } ops)).length := by
    rw [hti]
    simpa [get_all_books] using hlen2
  have hsome : (get_all_books (runOps { books := [] } ops))[((i : Nat) : Int).toNat]? =
      some b := by
    rw [hti, hall]
    exact hb
  rw [List.getElem?_eq_getElem hlt2] at hsome
  injection hsome with hsome2
  unfold get_book_by_index
  rw [dif_pos hcond]
  simp only [List.get_eq_getElem]
  rw [hsome2]

def sampleOps7 : List StoreOp :=
  [.addOp "a" bkA, .addOp "b" bkB, .deleteOp "a", .addOp "c" bkC]

theorem insertion_order_preserved_witness :
    get_book_by_index (runOps { books := [] } sampleOps7) ((1 : Nat) : Int) =
      .ok ({ bkC with book_id := some "c" }).to_dict :=
  (insertion_order_preserved sampleOps7 (by decide) (by decide)).2 1
    { bkC with book_id := some "c" } (by decide)

theorem runOps_length (ops : List StoreOp) : ∀ s : BookStore,
    (addIds ops).Nodup →
    (∀ id ∈ addIds ops, pyLookup s.books (some id) = none) →
    (runOps s ops).books.length + countSuccDeletes s ops =
      s.books.length + countAdds ops := by
  induction ops with
  | nil => intro s _ _; simp [runOps, countSuccDeletes, countAdds]
  | cons op rest ih =>
    intro s hnodup hfresh
    match op with
    | .addOp newId book =>
      have hfresh0 : pyLookup s.books (some newId) = none := hfresh newId (by simp [addIds])
      have hstore : (applyOp s (.addOp newId book)).books =
          s.books ++ [(some newId, { book with book_id := some newId })] := by
        simp only [applyOp, add_book_store]
        exact pyInsert_of_lookup_none _ _ _ hfresh0
      have hlen1 : (applyOp s (.addOp newId book)).books.length = s.books.length + 1 := by
        rw [hstore]
        simp
      have hnodup' : (addIds rest).Nodup := by
        simp only [addIds, List.nodup_cons] at hnodup
        exact hnodup.2
      have hfresh' : ∀ id ∈ addIds rest,
          pyLookup (applyOp s (.addOp newId book)).books (some id) = none := by
        intro id hid
        have hne : ¬ some newId = some id := by
          simp only [addIds, List.nodup_cons] at hnodup
          intro he
          injection he with he2
          exact hnodup.1 (he2 ▸ hid)
        rw [hstore, pyLookup_append_of_none _ _ _
          (hfresh id (by simp only [addIds, List.mem_cons]; exact Or.inr hid))]
        simp [pyLookup, hne]
      have hrec := ih (applyOp s (.addOp newId book)) hnodup' hfresh'
      show (runOps (applyOp s (.addOp newId book)) rest).books.length +
          countSuccDeletes (applyOp s (.addOp newId book)) rest =
        s.books.length + (countAdds rest + 1)
      omega
    | .updateOp id b =>
      have hnodup' : (addIds rest).Nodup := by simpa [addIds] using hnodup
      by_cases hmem : (pyLookup s.books (some id)).isSome
      · have hstore : (applyOp s (.updateOp id b)).books = pyInsert s.books (some id) b := by
          simp only [applyOp, update_book_store_of_isSome s none id b .ok hmem]
        have hlen1 : (applyOp s (.updateOp id b)).books.length = s.books.length := by
          rw [hstore]
          exact pyInsert_length_of_lookup_isSome _ _ _ hmem
        have hfresh' : ∀ id' ∈ addIds rest,
            pyLookup (applyOp s (.updateOp id b)).books (some id') = none := by
          intro id' hid'
          have hbase := hfresh id' (by simpa [addIds] using hid')
          rw [hstore, pyLookup_pyInsert]
          by_cases he : (some id' : Option String) = some id
          · rw [he] at hbase
            rw [hbase] at hmem
            simp at hmem
          · simp [he, hbase]
        have hrec := ih (applyOp s (.updateOp id b)) hnodup' hfresh'
        show (runOps (applyOp s (.updateOp id b)) rest).books.length +
            countSuccDeletes (applyOp s (.updateOp id b)) rest =
          s.books.length + countAdds rest
        omega
      · have hstore : applyOp s (.updateOp id b) = s := by
          simp [applyOp, update_book, hmem]
        have hrec := ih s hnodup' (fun id' hid' => hfresh id' (by simpa [addIds] using hid'))
        show (runOps (applyOp s (.updateOp id b)) rest).books.length +
            countSuccDeletes (applyOp s (.updateOp id b)) rest =
          s.books.length + countAdds rest
        rw [hstore]
        omega
    | .deleteOp id =>
      have hnodup' : (addIds rest).Nodup := by simpa [addIds] using hnodup
      by_cases hmem : (pyLookup s.books (some id)).isSome
      · have hstore : (applyOp s (.deleteOp id)).books = pyDelete s.books (some id) := by
          simp only [applyOp, delete_book_store_of_isSome s none id .ok hmem]
        have hlen1 : (applyOp s (.deleteOp id)).books.length + 1 = s.books.length := by
          rw [hstore]
          exact pyDelete_length_of_lookup_isSome _ _ hmem
        have hfresh' : ∀ id' ∈ addIds rest,
            pyLookup (applyOp s (.deleteOp id)).books (some id') = none := by
          intro id' hid'
          rw [hstore]
          exact pyLookup_pyDelete_none _ _ _ (hfresh id' (by simpa [addIds] using hid'))
        have hrec := ih (applyOp s (.deleteOp id)) hnodup' hfresh'
        show (runOps (applyOp s (.deleteOp id)) rest).books.length +
            ((if (pyLookup s.books (some id)).isSome then 1 else 0) +
              countSuccDeletes (applyOp s (.deleteOp id)) rest) =
          s.books.length + countAdds rest
        rw [if_pos hmem]
        omega
      · have hstore : applyOp s (.deleteOp id) = s := by
          simp [applyOp, delete_book, hmem]
        have hrec := ih s hnodup' (fun id' hid' => hfresh id' (by simpa [addIds] using hid'))
        show (runOps (applyOp s (.deleteOp id)) rest).books.length +
            ((if (pyLookup s.books (some id)).isSome then 1 else 0) +
              countSuccDeletes (applyOp s (.deleteOp id)) rest) =
          s.books.length + countAdds rest
        rw [if_neg hmem, hstore]
        omega

/-- C8: starting from store creation (empty store), after any sequence of
mutating calls (each add consuming a distinct uuid token — uuid uniqueness),
the length of the sequence returned by `get_all_books` equals the number of
(always successful) `add_book` calls minus the number of successful
`delete_book` calls; in particular `update_book` never changes the count.
`get_all_books` itself is a total function (it always succeeds, possibly with
the empty sequence). -/
theorem get_all_books_count (ops : List StoreOp) (hnodup : (addIds ops).Nodup) :
    (get_all_books (runOps { books := [] } ops)).length =
      countAdds ops - countSuccDeletes { books := [] } ops ∧
    countSuccDeletes { books := [] } ops ≤ countAdds ops := by
  have h := runOps_length ops { books := [] } hnodup (fun id _ => rfl)
  simp only [get_all_books, List.length_map]
  simp only [List.length_nil] at h
  constructor <;> omega

def sampleOps8 : List StoreOp :=
  [.addOp "a" bkA, .addOp "b" bkB, .updateOp "b" bkC, .deleteOp "a", .deleteOp "q"]

theorem get_all_books_count_witness :
    (get_all_books (runOps { books := [] } sampleOps8)).length =
      countAdds sampleOps8 - countSuccDeletes { books := [] } sampleOps8 ∧
    countSuccDeletes { books := [] } sampleOps8 ≤ countAdds sampleOps8 :=
  get_all_books_count sampleOps8 (by decide)

theorem pyInsert_getElem? {α β : Type} [DecidableEq α] (k : α) (v : β) :
    ∀ m : List (α × β), (m.map Prod.fst).Nodup → (pyLookup m k).isSome →
      ∀ j : Nat, (pyInsert m k v)[j]? =
        (m[j]?).map (fun kv => if kv.1 = k then (k, v) else kv) := by
  intro m
  induction m with
  | nil => intro _ h _; simp [pyLookup] at h
  | cons hd tl ih =>
    intro hnodup hmem j
    obtain ⟨k₀, v₀⟩ := hd
    have hnodup' : (tl.map Prod.fst).Nodup := by
      simp only [List.map_cons, List.nodup_cons] at hnodup
      exact hnodup.2
    have hnotmem : k₀ ∉ tl.map Prod.fst := by
      simp only [List.map_cons, List.nodup_cons] at hnodup
      exact hnodup.1
    by_cases h0 : k₀ = k
    · match j with
      | 0 => simp [pyInsert, h0]
      | j + 1 =>
        have hid : (tl[j]?).map (fun kv => if kv.1 = k then (k, v) else kv) = tl[j]? := by
          cases hx : tl[j]? with
          | none => rfl
          | some kv =>
            obtain ⟨hlt, hval⟩ := List.getElem?_eq_some.mp hx
            have hkv : kv ∈ tl := hval ▸ List.getElem_mem hlt
            have hne : ¬ kv.1 = k := by
              intro he
              apply hnotmem
              rw [h0, ← he]
              exact List.mem_map_of_mem Prod.fst hkv
            simp [hne]
        simp [pyInsert, h0, hid]
    · have hmem' : (pyLookup tl k).isSome := by
        simpa [pyLookup, h0] using hmem
      match j with
      | 0 => simp [pyInsert, h0]
      | j + 1 => simp [pyInsert, h0, ih hnodup' hmem' j]

/-- C10: a successful `update_book id new_book` replaces the value at the
(unique) position of key `id` in place and leaves every other entry — key,
value and position — unchanged, so the iteration order of `get_all_books` is
identical before and after except for the replaced value. -/
theorem update_book_frame (s : BookStore) (blob : Option (List BookDict)) (id : String)
    (nb : Book) (put : S3PutResult)
    (hnodup : (s.books.map Prod.fst).Nodup)
    (hmem : (pyLookup s.books (some id)).isSome) :
    ∀ j : Nat, (update_book s blob id nb put).store.books[j]? =
      (s.books[j]?).map (fun kv => if kv.1 = some id then (some id, nb) else kv) := by
  intro j
  rw [update_book_store_of_isSome s blob id nb put hmem]
  exact pyInsert_getElem? (some id) nb s.books hnodup hmem j

theorem update_book_frame_witness :
    (update_book { books := [(some "k", bkC), (some "j", bkA)] } none "k" bkB
        .ok).store.books[0]? =
      (((BookStore.mk [(some "k", bkC), (some "j", bkA)]).books[0]?).map
        (fun kv => if kv.1 = some "k" then (some "k", bkB) else kv)) ∧
    (update_book { books := [(some "k", bkC), (some "j", bkA)] } none "k" bkB
        .ok).store.books[1]? =
      (((BookStore.mk [(some "k", bkC), (some "j", bkA)]).books[1]?).map
        (fun kv => if kv.1 = some "k" then (some "k", bkB) else kv)) :=
  ⟨update_book_frame { books := [(some "k", bkC), (some "j", bkA)] } none "k" bkB .ok
      (by decide) (by decide) 0,
   update_book_frame { books := [(some "k", bkC), (some "j", bkA)] } none "k" bkB .ok
      (by decide) (by decide) 1⟩
